import Mathlib

/-!
# Verification of `lightning_pose/utils/fiftyone.py`

Shallow embedding of the tabular-to-FiftyOne transformation code:
tag validation, coordinate normalization, per-frame keypoint construction,
per-model aggregation, and the image-mode / video-mode dataset assemblers.

Numeric cell values are modelled as rationals; pandas dataframes are
modelled by a record carrying exactly the accessors the code uses; Python
exceptions are modelled with `Except Err`.

The file is organised with all definitions (the embedding itself, plus the
concrete example tables used by witnesses) first, followed by all theorems.
-/

namespace LightningPose

/-! ## Definitions: the embedding of the source code -/

/-- Failure modes of the build.  `keyError` / `indexError` model plain Python
`KeyError` / `IndexError`; the named members model the assertion failures the
code raises at the corresponding check sites. -/
inductive Err where
  | invalidTagSet
  | rowCountMismatch
  | missingImageFile
  | missingFile
  | modelNameCountMismatch
  | missingPredictionFile
  | keyError
  | indexError
  deriving DecidableEq, Repr

/-- One keypoint's column block in a table: the `x` and `y` sub-columns and an
optional `likelihood` sub-column (absent in ground-truth tables), each indexed
by row. -/
structure Column where
  x : List ℚ
  y : List ℚ
  likelihood : Option (List ℚ)
  deriving DecidableEq, Repr

/-- The accessors of a `pandas.DataFrame` (as produced by
`pd.read_csv(..., header=self.df_header_rows)`) that the code uses:
`outerHeader` is the first header row, one entry per column in column order
(`df.columns.levels[0]` is its order-of-first-appearance deduplication);
`rowLabels` is `df.iloc[:, 0]`; `lastCol` is `df.iloc[:, -1]` read as strings;
`cols` is keypoint-name lookup `df[name]`; `nrows` is `df.shape[0]`. -/
structure DataFrame where
  outerHeader : List String
  rowLabels : List String
  lastCol : List String
  cols : List (String × Column)
  nrows : ℕ
  deriving DecidableEq, Repr

/-- Lookup `df[name]`: first matching column block, `none` models a `KeyError`. -/
def dfGet (df : DataFrame) (name : String) : Option Column :=
  (df.cols.find? (fun p => p.1 == name)).map Prod.snd

/-- Lexicographic comparison of two character lists by Unicode code point:
the order Python's `sorted` uses on strings. -/
def charLeb : List Char → List Char → Bool
  | [], _ => true
  | _ :: _, [] => false
  | a :: as, b :: bs =>
    if a.toNat < b.toNat then true
    else if b.toNat < a.toNat then false
    else charLeb as bs

/-- Python's string order `a <= b`. -/
def pyLe (a b : String) : Prop := charLeb a.data b.data = true

instance : DecidableRel pyLe := fun _ _ =>
  inferInstanceAs (Decidable (_ = true))

/-- Python's `sorted` on a list of strings. -/
def pySorted (l : List String) : List String :=
  l.insertionSort pyLe

/-- Model of `numpy.unique`: the sorted list of distinct values. -/
def np_unique (l : List String) : List String :=
  pySorted l.dedup

/-- Embedding of `check_lists_equal` (fiftyone.py line 15):
`len(list_1) == len(list_2) and sorted(list_1) == sorted(list_2)`. -/
def check_lists_equal (list_1 list_2 : List String) : Bool :=
  list_1.length == list_2.length && pySorted list_1 == pySorted list_2

/-- Embedding of `check_unique_tags` (fiftyone.py line 20). -/
def check_unique_tags (data_pt_tags : List String) : Bool :=
  let uniques := np_unique data_pt_tags
  let cond_list := ["test", "train", "validation"]
  let cond_list_with_unused_images := ["test", "train", "validation", "unused"]
  check_lists_equal uniques cond_list ||
    check_lists_equal uniques cond_list_with_unused_images

/-- The substitution step of `get_image_tags`:
`pred_df.iloc[:, -1].replace("0.0", "unused")`. -/
def substituteTags (raw : List String) : List String :=
  raw.map (fun t => if t = "0.0" then "unused" else t)

/-- Embedding of `get_image_tags` (fiftyone.py line 43): substitute the
sentinel, assert `check_unique_tags`, return the substituted column. -/
def get_image_tags (pred_df : DataFrame) : Except Err (List String) :=
  let data_pt_tags := substituteTags pred_df.lastCol
  if check_unique_tags data_pt_tags then .ok data_pt_tags
  else .error .invalidTagSet

/-- Model of `fo.Keypoint`: one named, normalized 2-D position with a confidence. -/
structure Keypoint where
  points : List (ℚ × ℚ)
  confidence : ℚ
  label : String
  deriving DecidableEq, Repr

/-- Model of `fo.Keypoints`: the keypoint list of one frame from one source table. -/
structure Keypoints where
  keypoints : List Keypoint
  deriving DecidableEq, Repr

/-- A Python `for` loop that appends one result per element and aborts the
whole computation on the first raised exception. -/
def mapExcept (f : α → Except Err β) : List α → Except Err (List β)
  | [] => .ok []
  | x :: xs =>
    match f x with
    | .error e => .error e
    | .ok y =>
      match mapExcept f xs with
      | .error e => .error e
      | .ok ys => .ok (y :: ys)

/-- The confidence read of `build_single_frame_keypoint_list`
(fiftyone.py lines 122-125): `df[kp_name]["likelihood"][frame_idx]` when the
table defines a `likelihood` sub-field for the name, else the default `1.0`
used for ground-truth data. -/
def readConfidence (col : Column) (frame_idx : ℕ) : Except Err ℚ :=
  match col.likelihood with
  | some lk =>
    match lk.get? frame_idx with
    | some c => .ok c
    | none => .error .indexError
  | none => .ok (1 : ℚ)

/-- Embedding of the loop body sequence of `build_single_frame_keypoint_list`
(fiftyone.py lines 113-142), iterating over `self.keypoints_to_plot`:
look up `df[kp_name]` (KeyError if absent), read the confidence via
`readConfidence`, skip the reserved name `"bodyparts"`, and otherwise emit
`fo.Keypoint(points=[[x/width, y/height]], confidence, label=kp_name)`. -/
def build_single_frame_keypoint_list (img_width img_height : ℚ)
    (df : DataFrame) (frame_idx : ℕ) :
    List String → Except Err (List Keypoint)
  | [] => .ok []
  | kp_name :: rest =>
    match dfGet df kp_name with
    | none => .error .keyError
    | some col =>
      match readConfidence col frame_idx with
      | .error e => .error e
      | .ok confidence =>
        if kp_name = "bodyparts" then
          build_single_frame_keypoint_list img_width img_height df frame_idx rest
        else
          match col.x.get? frame_idx, col.y.get? frame_idx with
          | some xv, some yv =>
            match build_single_frame_keypoint_list img_width img_height df
                frame_idx rest with
            | .error e => .error e
            | .ok ks =>
              .ok (⟨[(xv / img_width, yv / img_height)], confidence, kp_name⟩ :: ks)
          | _, _ => .error .indexError

/-- Embedding of `get_keypoints_per_image` (fiftyone.py lines 145-153):
one `fo.Keypoints` per row of the dataframe, in row order. -/
def get_keypoints_per_image (keypoints_to_plot : List String)
    (img_width img_height : ℚ) (df : DataFrame) : Except Err (List Keypoints) :=
  mapExcept
    (fun img_idx =>
      match build_single_frame_keypoint_list img_width img_height df img_idx
          keypoints_to_plot with
      | .error e => .error e
      | .ok ks => .ok (Keypoints.mk ks))
    (List.range df.nrows)

/-- Embedding of `get_pred_keypoints_dict` (fiftyone.py lines 156-163):
for every model, in `model_preds_dict` insertion order, the per-row keypoint
lists of that model's table. -/
def get_pred_keypoints_dict (keypoints_to_plot : List String)
    (img_width img_height : ℚ) (model_preds_dict : List (String × DataFrame)) :
    Except Err (List (String × List Keypoints)) :=
  mapExcept
    (fun p =>
      match get_keypoints_per_image keypoints_to_plot img_width img_height p.2 with
      | .error e => .error e
      | .ok l => .ok (p.1, l))
    model_preds_dict

/-- Worker for order-of-first-appearance deduplication: `seen` holds the
names already emitted. -/
def dedupFirstAux (seen : List String) : List String → List String
  | [] => []
  | x :: xs =>
    if seen.contains x then dedupFirstAux seen xs
    else x :: dedupFirstAux (x :: seen) xs

/-- Order-of-first-appearance deduplication: how `pandas` factorizes a header
row into `columns.levels[0]`. -/
def dedupFirst (l : List String) : List String :=
  dedupFirstAux [] l

/-- Model of `df.columns.levels[0]`: the distinct outer header names in order of first
appearance. -/
def columnsLevels0 (df : DataFrame) : List String :=
  dedupFirst df.outerHeader

/-- Embedding of the keypoint-name resolution of
`FiftyOneKeypointBase.__init__` (fiftyone.py lines 66-70): use the explicit
`keypoints_to_plot` argument when given, else
`list(self.ground_truth_df.columns.levels[0][1:])`. -/
def resolve_keypoints_to_plot (explicit : Option (List String))
    (ground_truth_df : DataFrame) : List String :=
  match explicit with
  | some l => l
  | none => (columnsLevels0 ground_truth_df).drop 1

/-- Embedding of the `model_names` property of `FiftyOneKeypointVideoPlotter`
(fiftyone.py lines 263-270): explicit configured display names when present,
else synthesized `"model_<i>"` names, then the count assertion against the
prediction-file list. -/
def video_model_names (model_display_names : Option (List String))
    (pred_csv_files : List String) : Except Err (List String) :=
  let names :=
    match model_display_names with
    | none => (List.range pred_csv_files.length).map
        (fun i => "model_" ++ toString i)
    | some ns => ns
  if names.length = pred_csv_files.length then .ok names
  else .error .modelNameCountMismatch

/-- Python `dict` insertion: overwrite in place when the key exists, else
append.  Used to model `self.model_preds_dict[name] = df`. -/
def dict_insert (d : List (String × DataFrame)) (k : String) (v : DataFrame) :
    List (String × DataFrame) :=
  if d.any (fun p => p.1 == k) then
    d.map (fun p => if p.1 == k then (p.1, v) else p)
  else d ++ [(k, v)]

/-- Embedding of `load_model_predictions` (both modes): build
`self.model_preds_dict` by inserting, per model in declaration order, that
model's loaded table under its display name.  The tables are passed in
declaration order, standing for the per-model `pd.read_csv` results. -/
def load_model_predictions (model_names : List String)
    (tables : List DataFrame) : List (String × DataFrame) :=
  (model_names.zip tables).foldl (fun d p => dict_insert d p.1 p.2) []

/-- Model of `fo.Sample`: one image (with a tag and per-model fields) or one video
(with per-frame field sets, keyed by 1-based frame index). -/
structure Sample where
  filepath : String
  tags : List String
  fields : List (String × Keypoints)
  frames : List (ℕ × List (String × Keypoints))
  deriving DecidableEq, Repr

/-- Model of `fo.Dataset`: a named collection of samples. -/
structure Dataset where
  name : String
  samples : List Sample
  deriving DecidableEq, Repr

/-- One frame's field assignments in the sample loops: for each model, in
dictionary order, the field `"<model_name>_preds"` holding
`model_preds[frame_idx]` (an `IndexError` when the model's list is shorter). -/
def build_frame_fields (pred_keypoints_dict : List (String × List Keypoints))
    (frame_idx : ℕ) : Except Err (List (String × Keypoints)) :=
  mapExcept
    (fun p =>
      match p.2.get? frame_idx with
      | some ks => .ok (p.1 ++ "_preds", ks)
      | none => .error .indexError)
    pred_keypoints_dict

/-- The frame loop of `FiftyOneKeypointVideoPlotter.create_dataset`
(fiftyone.py lines 290-295): iterate `frame_idx` over the length of the first
model's list (IndexError on an empty dictionary), setting
`video_sample.frames[frame_idx + 1][name + "_preds"]` per model. -/
def build_video_frames (pred_keypoints_dict : List (String × List Keypoints)) :
    Except Err (List (ℕ × List (String × Keypoints))) :=
  match pred_keypoints_dict with
  | [] => .error .indexError
  | first :: _ =>
    mapExcept
      (fun frame_idx =>
        match build_frame_fields pred_keypoints_dict frame_idx with
        | .error e => .error e
        | .ok fields => .ok (frame_idx + 1, fields))
      (List.range first.2.length)

/-- The configuration surface of a video-mode build: optional explicit
model display names, the declared prediction csv paths and their loaded
tables (one per file, in declaration order), the video path, image
dimensions, the configured dataset name, and the resolved
`keypoints_to_plot`. -/
structure VideoConfig where
  model_display_names : Option (List String)
  pred_csv_files : List String
  pred_tables : List DataFrame
  video : String
  img_width : ℚ
  img_height : ℚ
  dataset_name : String
  keypoints_to_plot : List String

/-- Embedding of `FiftyOneKeypointVideoPlotter.create_dataset`
(fiftyone.py lines 279-298): resolve model names (the `model_names` property
asserts the count), load each prediction csv into the dictionary, build the
per-model keypoint lists, fill one video sample's frames, and return a
dataset named `self.dataset_name + "_videos"` containing exactly that
sample. -/
def create_dataset_video (cfg : VideoConfig) : Except Err Dataset :=
  match video_model_names cfg.model_display_names cfg.pred_csv_files with
  | .error e => .error e
  | .ok names =>
    let model_preds_dict := load_model_predictions names cfg.pred_tables
    match get_pred_keypoints_dict cfg.keypoints_to_plot cfg.img_width
        cfg.img_height model_preds_dict with
    | .error e => .error e
    | .ok pred_keypoints_dict =>
      match build_video_frames pred_keypoints_dict with
      | .error e => .error e
      | .ok frames =>
        .ok { name := cfg.dataset_name ++ "_videos",
              samples := [{ filepath := cfg.video, tags := [],
                            fields := [], frames := frames }] }

/-- Observable stages of `FiftyOneImagePlotter.create_dataset`, recorded in
the order the code completes them. -/
inductive Event where
  | loadedModelPredictions
  | derivedTags
  | builtGtKeypoints
  | builtModelKeypoints
  | checkedImageFiles
  | assembledSamples
  deriving DecidableEq, Repr

/-- The configuration surface of an image-mode build: the loaded ground-truth
table, the declared model names and their loaded prediction tables (one per
model directory, in declaration order), image dimensions, the configured
dataset name, the resolved `keypoints_to_plot`, the data directory, and the
filesystem's `os.path.isfile` oracle. -/
structure ImageConfig where
  ground_truth_df : DataFrame
  model_names : List String
  model_tables : List DataFrame
  img_width : ℚ
  img_height : ℚ
  dataset_name : String
  keypoints_to_plot : List String
  data_dir : String
  fileExists : String → Bool

/-- Embedding of the `image_paths` property (fiftyone.py lines 177-191):
absolute paths joined from the data directory and the ground-truth
`iloc[:, 0]` column, with the `os.path.isfile` assertion run over every path
before the list is returned. -/
def image_paths (cfg : ImageConfig) : Except Err (List String) :=
  if (cfg.ground_truth_df.rowLabels.map
      (fun p => cfg.data_dir ++ "/" ++ p)).all cfg.fileExists then
    .ok (cfg.ground_truth_df.rowLabels.map (fun p => cfg.data_dir ++ "/" ++ p))
  else .error .missingImageFile

/-- The sample loop of `FiftyOneImagePlotter.create_dataset`
(fiftyone.py lines 210-219): for each image path, in order, one sample
carrying the tag at that index, the `"ground_truth"` field, and one
`"<model_name>_preds"` field per model. -/
def build_samples (paths data_tags : List String)
    (gt_keypoints_list : List Keypoints)
    (pred_keypoints_dict : List (String × List Keypoints)) :
    Except Err (List Sample) :=
  mapExcept
    (fun (ip : ℕ × String) =>
      match data_tags.get? ip.1, gt_keypoints_list.get? ip.1 with
      | some tag, some gt =>
        match build_frame_fields pred_keypoints_dict ip.1 with
        | .error e => .error e
        | .ok fields =>
          .ok { filepath := ip.2, tags := [tag],
                fields := ("ground_truth", gt) :: fields, frames := [] }
      | _, _ => .error .indexError)
    paths.enum

/-- Embedding of `FiftyOneImagePlotter.create_dataset`
(fiftyone.py lines 200-223), paired with the trace of stages completed before
the result was decided, in source statement order: load the model
predictions, derive the tags from the first declared model's table, build the
ground-truth keypoints, build every model's keypoints, and only then iterate
`self.image_paths` — whose file check runs at that point — to assemble
samples into a dataset named `self.dataset_name`. -/
def create_dataset_image (cfg : ImageConfig) :
    List Event × Except Err Dataset :=
  let model_preds_dict :=
    load_model_predictions cfg.model_names cfg.model_tables
  match cfg.model_names.head? with
  | none => ([.loadedModelPredictions], .error .indexError)
  | some first_name =>
    match (model_preds_dict.find? (fun p => p.1 == first_name)).map Prod.snd with
    | none => ([.loadedModelPredictions], .error .keyError)
    | some first_df =>
      match get_image_tags first_df with
      | .error e => ([.loadedModelPredictions], .error e)
      | .ok data_tags =>
        match get_keypoints_per_image cfg.keypoints_to_plot cfg.img_width
            cfg.img_height cfg.ground_truth_df with
        | .error e => ([.loadedModelPredictions, .derivedTags], .error e)
        | .ok gt_keypoints_list =>
          match get_pred_keypoints_dict cfg.keypoints_to_plot cfg.img_width
              cfg.img_height model_preds_dict with
          | .error e =>
            ([.loadedModelPredictions, .derivedTags, .builtGtKeypoints],
             .error e)
          | .ok pred_keypoints_dict =>
            match image_paths cfg with
            | .error e =>
              ([.loadedModelPredictions, .derivedTags, .builtGtKeypoints,
                .builtModelKeypoints], .error e)
            | .ok paths =>
              match build_samples paths data_tags gt_keypoints_list
                  pred_keypoints_dict with
              | .error e =>
                ([.loadedModelPredictions, .derivedTags, .builtGtKeypoints,
                  .builtModelKeypoints, .checkedImageFiles], .error e)
              | .ok samples =>
                ([.loadedModelPredictions, .derivedTags, .builtGtKeypoints,
                  .builtModelKeypoints, .checkedImageFiles, .assembledSamples],
                 .ok { name := cfg.dataset_name, samples := samples })

/-! ## Definitions: concrete example tables and configurations -/

/-- A ground-truth `"nose"` column: no likelihood sub-field. -/
def noseColGt : Column :=
  { x := [1, 2, 3], y := [4, 5, 6], likelihood := none }

/-- A prediction `"nose"` column with a likelihood sub-field. -/
def noseColPred : Column :=
  { x := [1, 2, 3], y := [4, 5, 6], likelihood := some [9/10, 8/10, 7/10] }

/-- A three-row ground-truth table with one keypoint, `"nose"`. -/
def gtDf : DataFrame :=
  { outerHeader := ["bodyparts", "nose", "nose"],
    rowLabels := ["img0.png", "img1.png", "img2.png"],
    lastCol := [],
    cols := [("nose", noseColGt)],
    nrows := 3 }

/-- A three-row prediction table whose trailing column is the split tag. -/
def predDf : DataFrame :=
  { outerHeader := ["bodyparts", "nose", "nose", "nose", "set"],
    rowLabels := ["img0.png", "img1.png", "img2.png"],
    lastCol := ["train", "test", "validation"],
    cols := [("nose", noseColPred)],
    nrows := 3 }

/-- An image-mode configuration whose referenced image files all exist. -/
def exImageConfig : ImageConfig :=
  { ground_truth_df := gtDf,
    model_names := ["m0"],
    model_tables := [predDf],
    img_width := 2,
    img_height := 1,
    dataset_name := "lp_ds",
    keypoints_to_plot := ["nose"],
    data_dir := "data",
    fileExists := fun _ => true }

/-- The same image-mode configuration on a filesystem missing every image. -/
def exMissingImageConfig : ImageConfig :=
  { exImageConfig with fileExists := fun _ => false }

/-- A video-mode configuration with one prediction file and no explicit model
display names. -/
def exVideoConfig : VideoConfig :=
  { model_display_names := none,
    pred_csv_files := ["preds0.csv"],
    pred_tables := [predDf],
    video := "vid.mp4",
    img_width := 2,
    img_height := 1,
    dataset_name := "lp_ds",
    keypoints_to_plot := ["nose"] }

/-- A one-row prediction table. -/
def shortDf : DataFrame :=
  { outerHeader := ["bodyparts", "nose", "nose"],
    rowLabels := ["a.png"],
    lastCol := [],
    cols := [("nose", { x := [0], y := [0], likelihood := none })],
    nrows := 1 }

/-- A two-row prediction table: its row count differs from `shortDf`. -/
def longDf : DataFrame :=
  { outerHeader := ["bodyparts", "nose", "nose"],
    rowLabels := ["a.png", "b.png"],
    lastCol := [],
    cols := [("nose", { x := [0, 0], y := [0, 0], likelihood := none })],
    nrows := 2 }

/-- A table with no keypoint columns at all: looking up `"nose"` raises. -/
def emptyColsDf : DataFrame :=
  { outerHeader := ["bodyparts"],
    rowLabels := ["a.png"],
    lastCol := [],
    cols := [],
    nrows := 1 }

/-- The table of the spec's normalization scenario: raw `(100, 50)`. -/
def scenarioCol : Column :=
  { x := [100], y := [50], likelihood := none }

def scenarioDf : DataFrame :=
  { outerHeader := ["bodyparts", "nose", "nose"],
    rowLabels := ["f0.png"],
    lastCol := [],
    cols := [("nose", scenarioCol)],
    nrows := 1 }

/-- The keypoint list built from `gtDf`'s first row. -/
def exGtRow0 : List Keypoint :=
  match build_single_frame_keypoint_list 2 1 gtDf 0 ["nose"] with
  | .ok l => l
  | .error _ => []

/-- The keypoint list built from `scenarioDf`'s only row at width 200,
height 100. -/
def scenarioRes : List Keypoint :=
  match build_single_frame_keypoint_list 200 100 scenarioDf 0 ["nose"] with
  | .ok l => l
  | .error _ => []

/-- The per-row ground-truth keypoint sets of `gtDf`. -/
def exGtList : List Keypoints :=
  match get_keypoints_per_image ["nose"] 2 1 gtDf with
  | .ok l => l
  | .error _ => []

/-- The aggregated predictions of the single model `"m0"` over `predDf`. -/
def exPredDict : List (String × List Keypoints) :=
  match get_pred_keypoints_dict ["nose"] 2 1 [("m0", predDf)] with
  | .ok r => r
  | .error _ => []

def exKs1 : Keypoints := exGtList.headD ⟨[]⟩

def exP : String × List Keypoints := exPredDict.headD ("", [])

def exKs2 : Keypoints := exP.2.headD ⟨[]⟩

/-- The dataset built by the image-mode assembler on `exImageConfig`. -/
def exImageDataset : Dataset :=
  match (create_dataset_image exImageConfig).2 with
  | .ok d => d
  | .error _ => { name := "", samples := [] }

/-- The dataset built by the video-mode assembler on `exVideoConfig`. -/
def exVideoDataset : Dataset :=
  match create_dataset_video exVideoConfig with
  | .ok d => d
  | .error _ => { name := "", samples := [] }

/-- The per-model list lengths of a successful aggregation. -/
def okLengths (x : Except Err (List (String × List Keypoints))) :
    Option (List ℕ) :=
  match x with
  | .ok r => some (r.map (fun p => p.2.length))
  | .error _ => none

/-! ## Theorems: supporting lemmas -/

theorem charLeb_total : ∀ as bs : List Char,
    charLeb as bs = true ∨ charLeb bs as = true := by
  intro as
  induction as with
  | nil => intro bs; left; rfl
  | cons a as ih =>
    intro bs
    cases bs with
    | nil => right; rfl
    | cons b bs =>
      unfold charLeb
      rcases Nat.lt_trichotomy a.toNat b.toNat with h | h | h
      · left
        rw [if_pos h]
      · rw [if_neg (by omega), if_neg (by omega),
          if_neg (by omega), if_neg (by omega)]
        exact ih bs
      · right
        rw [if_pos h]

theorem charLeb_trans : ∀ as bs cs : List Char,
    charLeb as bs = true → charLeb bs cs = true → charLeb as cs = true := by
  intro as
  induction as with
  | nil => intro bs cs _ _; rfl
  | cons a as ih =>
    intro bs cs h₁ h₂
    cases bs with
    | nil => exact absurd h₁ (by simp [charLeb])
    | cons b bs =>
      cases cs with
      | nil => exact absurd h₂ (by simp [charLeb])
      | cons c cs =>
        simp only [charLeb] at h₁ h₂ ⊢
        split at h₁
        · split at h₂
          · rw [if_pos (by omega)]
          · split at h₂
            · exact absurd h₂ (by simp)
            · rw [if_pos (by omega)]
        · split at h₁
          · exact absurd h₁ (by simp)
          · split at h₂
            · rw [if_pos (by omega)]
            · split at h₂
              · exact absurd h₂ (by simp)
              · rw [if_neg (by omega), if_neg (by omega)]
                exact ih bs cs h₁ h₂

theorem charLeb_antisymm : ∀ as bs : List Char,
    charLeb as bs = true → charLeb bs as = true → as = bs := by
  intro as
  induction as with
  | nil =>
    intro bs _ h₂
    cases bs with
    | nil => rfl
    | cons b bs => exact absurd h₂ (by simp [charLeb])
  | cons a as ih =>
    intro bs h₁ h₂
    cases bs with
    | nil => exact absurd h₁ (by simp [charLeb])
    | cons b bs =>
      simp only [charLeb] at h₁ h₂
      split at h₁
      · split at h₂
        · omega
        · exact absurd h₂ (by simp)
      · split at h₁
        · exact absurd h₁ (by simp)
        · split at h₂
          · omega
          · have hchar : a = b := by
              apply Char.eq_of_val_eq
              have hn : a.toNat = b.toNat := by omega
              unfold Char.toNat at hn
              exact UInt32.toNat.inj hn
            rw [hchar, ih bs h₁ h₂]

instance : IsTotal String pyLe :=
  ⟨fun a b => charLeb_total a.data b.data⟩

instance : IsTrans String pyLe :=
  ⟨fun a b c => charLeb_trans a.data b.data c.data⟩

instance : IsAntisymm String pyLe :=
  ⟨fun a b h₁ h₂ => String.toList_inj.mp (charLeb_antisymm a.data b.data h₁ h₂)⟩

theorem pySorted_perm (l : List String) : List.Perm (pySorted l) l :=
  List.perm_insertionSort _ l

theorem pySorted_sorted (l : List String) :
    List.Sorted pyLe (pySorted l) :=
  List.sorted_insertionSort _ l

theorem pySorted_eq_iff_perm {l m : List String} :
    pySorted l = pySorted m ↔ List.Perm l m := by
  constructor
  · intro h
    exact ((pySorted_perm l).symm.trans (h ▸ pySorted_perm m))
  · intro h
    exact List.eq_of_perm_of_sorted
      (((pySorted_perm l).trans h).trans (pySorted_perm m).symm)
      (pySorted_sorted l) (pySorted_sorted m)

theorem check_lists_equal_iff_perm {l m : List String} :
    check_lists_equal l m = true ↔ List.Perm l m := by
  unfold check_lists_equal
  rw [Bool.and_eq_true, beq_iff_eq, beq_iff_eq, pySorted_eq_iff_perm]
  constructor
  · exact fun h => h.2
  · exact fun h => ⟨h.length_eq, h⟩

theorem np_unique_perm_iff {l c : List String} :
    List.Perm (np_unique l) c ↔ List.Perm l.dedup c := by
  constructor
  · exact fun h => (pySorted_perm l.dedup).symm.trans h
  · exact fun h => (pySorted_perm l.dedup).trans h

theorem dedup_perm_iff_toFinset_eq {l c : List String} (hc : c.Nodup) :
    List.Perm l.dedup c ↔ l.toFinset = c.toFinset := by
  rw [List.toFinset_eq_iff_perm_dedup, List.dedup_eq_self.mpr hc]

theorem check_unique_tags_iff (l : List String) :
    check_unique_tags l = true ↔
      (l.toFinset = ({"test", "train", "validation"} : Finset String) ∨
       l.toFinset = ({"test", "train", "validation", "unused"} : Finset String)) := by
  unfold check_unique_tags
  rw [Bool.or_eq_true, check_lists_equal_iff_perm, check_lists_equal_iff_perm,
    np_unique_perm_iff, np_unique_perm_iff,
    dedup_perm_iff_toFinset_eq (by decide),
    dedup_perm_iff_toFinset_eq (by decide)]
  constructor
  · rintro (h | h)
    · left; rw [h]; rfl
    · right; rw [h]; rfl
  · rintro (h | h)
    · left; rw [h]; rfl
    · right; rw [h]; rfl

theorem mapExcept_ok_length {f : α → Except Err β} :
    ∀ {xs : List α} {l : List β}, mapExcept f xs = .ok l → l.length = xs.length := by
  intro xs
  induction xs with
  | nil => intro l h; simp [mapExcept] at h; simp [← h]
  | cons x xs ih =>
    intro l h
    unfold mapExcept at h
    cases hx : f x with
    | error e => rw [hx] at h; exact Except.noConfusion h
    | ok y =>
      rw [hx] at h
      cases hxs : mapExcept f xs with
      | error e => rw [hxs] at h; exact Except.noConfusion h
      | ok ys =>
        rw [hxs] at h
        cases h
        simp [ih hxs]

theorem mapExcept_ok_mem {f : α → Except Err β} :
    ∀ {xs : List α} {l : List β}, mapExcept f xs = .ok l →
      ∀ y ∈ l, ∃ x ∈ xs, f x = .ok y := by
  intro xs
  induction xs with
  | nil =>
    intro l h y hy
    simp [mapExcept] at h
    subst h
    exact absurd hy (List.not_mem_nil y)
  | cons x xs ih =>
    intro l h y hy
    unfold mapExcept at h
    cases hx : f x with
    | error e => rw [hx] at h; exact Except.noConfusion h
    | ok y' =>
      rw [hx] at h
      cases hxs : mapExcept f xs with
      | error e => rw [hxs] at h; exact Except.noConfusion h
      | ok ys =>
        rw [hxs] at h
        cases h
        rcases List.mem_cons.mp hy with hy | hy
        · exact ⟨x, List.mem_cons_self x xs, hy ▸ hx⟩
        · obtain ⟨x', hx', hfx'⟩ := ih hxs y hy
          exact ⟨x', List.mem_cons_of_mem x hx', hfx'⟩

theorem mapExcept_error_mem {f : α → Except Err β} :
    ∀ {xs : List α} {e : Err}, mapExcept f xs = .error e →
      ∃ x ∈ xs, f x = .error e := by
  intro xs
  induction xs with
  | nil => intro e h; simp [mapExcept] at h
  | cons x xs ih =>
    intro e h
    unfold mapExcept at h
    cases hx : f x with
    | error e' =>
      rw [hx] at h
      cases h
      exact ⟨x, List.mem_cons_self x xs, hx⟩
    | ok y =>
      rw [hx] at h
      cases hxs : mapExcept f xs with
      | error e' =>
        rw [hxs] at h
        cases h
        obtain ⟨x', hx', hfx'⟩ := ih hxs
        exact ⟨x', List.mem_cons_of_mem x hx', hfx'⟩
      | ok ys => rw [hxs] at h; exact Except.noConfusion h

theorem mapExcept_ok_forall₂ {f : α → Except Err β} :
    ∀ {xs : List α} {l : List β}, mapExcept f xs = .ok l →
      List.Forall₂ (fun y x => f x = .ok y) l xs := by
  intro xs
  induction xs with
  | nil =>
    intro l h
    simp [mapExcept] at h
    subst h
    exact List.Forall₂.nil
  | cons x xs ih =>
    intro l h
    unfold mapExcept at h
    cases hx : f x with
    | error e => rw [hx] at h; exact Except.noConfusion h
    | ok y =>
      rw [hx] at h
      cases hxs : mapExcept f xs with
      | error e => rw [hxs] at h; exact Except.noConfusion h
      | ok ys =>
        rw [hxs] at h
        cases h
        exact List.Forall₂.cons hx (ih hxs)

theorem forall₂_mem_left {α β : Type} {R : α → β → Prop} :
    ∀ {l₁ : List α} {l₂ : List β}, List.Forall₂ R l₁ l₂ →
      ∀ p ∈ l₁, ∃ q ∈ l₂, R p q := by
  intro l₁ l₂ h
  induction h with
  | nil => intro p hp; exact absurd hp (List.not_mem_nil p)
  | cons hr _ ih =>
    intro p hp
    rcases List.mem_cons.mp hp with hp | hp
    · subst hp
      exact ⟨_, List.mem_cons_self _ _, hr⟩
    · obtain ⟨q, hq, hrq⟩ := ih p hp
      exact ⟨q, List.mem_cons_of_mem _ hq, hrq⟩

theorem build_single_frame_labels {img_width img_height : ℚ} {df : DataFrame}
    {frame_idx : ℕ} :
    ∀ {ktp : List String} {res : List Keypoint},
      build_single_frame_keypoint_list img_width img_height df frame_idx ktp =
          .ok res →
      res.map Keypoint.label = ktp.filter (fun n => n != "bodyparts") := by
  intro ktp
  induction ktp with
  | nil =>
    intro res h
    simp [build_single_frame_keypoint_list] at h
    simp [← h]
  | cons kp_name rest ih =>
    intro res h
    unfold build_single_frame_keypoint_list at h
    cases hcol : dfGet df kp_name with
    | none => simp only [hcol] at h; exact Except.noConfusion h
    | some col =>
      simp only [hcol] at h
      cases hconf : readConfidence col frame_idx with
      | error e => simp only [hconf] at h; exact Except.noConfusion h
      | ok confidence =>
        simp only [hconf] at h
        by_cases hname : kp_name = "bodyparts"
        · rw [if_pos hname] at h
          have hfalse : (kp_name != "bodyparts") = false := by
            simp [hname]
          simp only [List.filter_cons, hfalse]
          exact ih h
        · rw [if_neg hname] at h
          cases hx : col.x.get? frame_idx with
          | none => simp only [hx] at h; exact Except.noConfusion h
          | some xv =>
            cases hy : col.y.get? frame_idx with
            | none => simp only [hx, hy] at h; exact Except.noConfusion h
            | some yv =>
              simp only [hx, hy] at h
              cases hrec : build_single_frame_keypoint_list img_width img_height
                  df frame_idx rest with
              | error e => simp only [hrec] at h; exact Except.noConfusion h
              | ok ks =>
                simp only [hrec] at h
                cases h
                have htrue : (kp_name != "bodyparts") = true := by
                  simp [hname]
                simp only [List.filter_cons, htrue, List.map_cons]
                exact congrArg (kp_name :: ·) (ih hrec)

theorem build_single_frame_error {img_width img_height : ℚ} {df : DataFrame}
    {frame_idx : ℕ} :
    ∀ {ktp : List String} {e : Err},
      build_single_frame_keypoint_list img_width img_height df frame_idx ktp =
          .error e →
      e = .keyError ∨ e = .indexError := by
  intro ktp
  induction ktp with
  | nil =>
    intro e h
    simp [build_single_frame_keypoint_list] at h
  | cons kp_name rest ih =>
    intro e h
    unfold build_single_frame_keypoint_list at h
    cases hcol : dfGet df kp_name with
    | none =>
      simp only [hcol, Except.error.injEq] at h
      exact Or.inl h.symm
    | some col =>
      simp only [hcol] at h
      cases hconf : readConfidence col frame_idx with
      | error e' =>
        simp only [hconf, Except.error.injEq] at h
        subst h
        unfold readConfidence at hconf
        cases hl : col.likelihood with
        | none => simp only [hl] at hconf; exact Except.noConfusion hconf
        | some lk =>
          simp only [hl] at hconf
          cases hg : lk.get? frame_idx with
          | none =>
            simp only [hg, Except.error.injEq] at hconf
            exact Or.inr hconf.symm
          | some c => simp only [hg] at hconf; exact Except.noConfusion hconf
      | ok confidence =>
        simp only [hconf] at h
        by_cases hname : kp_name = "bodyparts"
        · rw [if_pos hname] at h
          exact ih h
        · rw [if_neg hname] at h
          cases hx : col.x.get? frame_idx with
          | none =>
            simp only [hx, Except.error.injEq] at h
            exact Or.inr h.symm
          | some xv =>
            cases hy : col.y.get? frame_idx with
            | none =>
              simp only [hx, hy, Except.error.injEq] at h
              exact Or.inr h.symm
            | some yv =>
              simp only [hx, hy] at h
              cases hrec : build_single_frame_keypoint_list img_width img_height
                  df frame_idx rest with
              | error e' =>
                simp only [hrec, Except.error.injEq] at h
                exact h ▸ ih hrec
              | ok ks => simp only [hrec] at h; exact Except.noConfusion h

theorem get_keypoints_per_image_labels {ktp : List String} {w h : ℚ}
    {df : DataFrame} {l : List Keypoints}
    (hok : get_keypoints_per_image ktp w h df = .ok l) :
    ∀ ks ∈ l, ks.keypoints.map Keypoint.label =
      ktp.filter (fun n => n != "bodyparts") := by
  intro ks hks
  obtain ⟨i, _, hi⟩ := mapExcept_ok_mem hok ks hks
  cases hb : build_single_frame_keypoint_list w h df i ktp with
  | error e => rw [hb] at hi; exact Except.noConfusion hi
  | ok kl =>
    rw [hb] at hi
    cases hi
    exact build_single_frame_labels hb

theorem get_keypoints_per_image_error {ktp : List String} {w h : ℚ}
    {df : DataFrame} {e : Err}
    (herr : get_keypoints_per_image ktp w h df = .error e) :
    e = .keyError ∨ e = .indexError := by
  obtain ⟨i, _, hi⟩ := mapExcept_error_mem herr
  cases hb : build_single_frame_keypoint_list w h df i ktp with
  | error e' =>
    rw [hb] at hi
    cases hi
    exact build_single_frame_error hb
  | ok kl => rw [hb] at hi; exact Except.noConfusion hi

theorem get_keypoints_per_image_length {ktp : List String} {w h : ℚ}
    {df : DataFrame} {l : List Keypoints}
    (hok : get_keypoints_per_image ktp w h df = .ok l) :
    l.length = df.nrows := by
  have := mapExcept_ok_length hok
  simpa using this

/-- One successful step of `build_single_frame_keypoint_list` on a
non-reserved keypoint name: the head of the result is the normalized
keypoint for that name. -/
theorem build_cons_ok {img_width img_height : ℚ} {df : DataFrame} {i : ℕ}
    {name : String} {rest : List String} {col : Column} {res : List Keypoint}
    (hcol : dfGet df name = some col) (hname : name ≠ "bodyparts")
    (hres : build_single_frame_keypoint_list img_width img_height df i
        (name :: rest) = .ok res) :
    ∃ xv yv conf tail,
      col.x.get? i = some xv ∧ col.y.get? i = some yv ∧
      readConfidence col i = .ok conf ∧
      build_single_frame_keypoint_list img_width img_height df i rest =
        .ok tail ∧
      res = ⟨[(xv / img_width, yv / img_height)], conf, name⟩ :: tail := by
  unfold build_single_frame_keypoint_list at hres
  simp only [hcol] at hres
  cases hconf : readConfidence col i with
  | error e => simp only [hconf] at hres; exact Except.noConfusion hres
  | ok conf =>
    simp only [hconf] at hres
    rw [if_neg hname] at hres
    cases hx : col.x.get? i with
    | none => simp only [hx] at hres; exact Except.noConfusion hres
    | some xv =>
      cases hy : col.y.get? i with
      | none => simp only [hx, hy] at hres; exact Except.noConfusion hres
      | some yv =>
        simp only [hx, hy] at hres
        cases hrec : build_single_frame_keypoint_list img_width img_height df
            i rest with
        | error e => simp only [hrec] at hres; exact Except.noConfusion hres
        | ok ks =>
          simp only [hrec, Except.ok.injEq] at hres
          exact ⟨xv, yv, conf, ks, rfl, rfl, rfl, rfl, hres.symm⟩

/-- Error classification for the aggregator: its only failures are Python
`KeyError` / `IndexError` raised inside keypoint construction. -/
theorem get_pred_keypoints_dict_error {keypoints_to_plot : List String}
    {img_width img_height : ℚ}
    {model_preds_dict : List (String × DataFrame)} {e : Err}
    (herr : get_pred_keypoints_dict keypoints_to_plot img_width img_height
      model_preds_dict = .error e) : e = .keyError ∨ e = .indexError := by
  obtain ⟨q, _, hq⟩ := mapExcept_error_mem herr
  cases hq2 : get_keypoints_per_image keypoints_to_plot img_width img_height
      q.2 with
  | error e' =>
    rw [hq2] at hq
    cases hq
    exact get_keypoints_per_image_error hq2
  | ok l => rw [hq2] at hq; exact Except.noConfusion hq

/-- Result shape for the aggregator: on success the keys are the declared
model names in order and each model's list has that model's own row count. -/
theorem get_pred_keypoints_dict_ok_shape {keypoints_to_plot : List String}
    {img_width img_height : ℚ}
    {model_preds_dict : List (String × DataFrame)}
    {r : List (String × List Keypoints)}
    (hok : get_pred_keypoints_dict keypoints_to_plot img_width img_height
      model_preds_dict = .ok r) :
    r.map Prod.fst = model_preds_dict.map Prod.fst ∧
      List.Forall₂ (fun p q => p.2.length = q.2.nrows) r model_preds_dict := by
  have hf := mapExcept_ok_forall₂ hok
  have key : ∀ (p : String × List Keypoints) (q : String × DataFrame),
      (match get_keypoints_per_image keypoints_to_plot img_width img_height
          q.2 with
       | .error e => Except.error e
       | .ok l => Except.ok (q.1, l)) = .ok p →
      p.1 = q.1 ∧ p.2.length = q.2.nrows := by
    intro p q hpq
    cases hq2 : get_keypoints_per_image keypoints_to_plot img_width
        img_height q.2 with
    | error e => rw [hq2] at hpq; exact Except.noConfusion hpq
    | ok l =>
      rw [hq2] at hpq
      cases hpq
      exact ⟨rfl, get_keypoints_per_image_length hq2⟩
  clear hok
  induction hf with
  | nil => exact ⟨rfl, List.Forall₂.nil⟩
  | cons hpq _ ih =>
    obtain ⟨h1, h2⟩ := key _ _ hpq
    obtain ⟨ih1, ih2⟩ := ih
    exact ⟨by simp [h1, ih1], List.Forall₂.cons h2 ih2⟩

theorem dedupFirstAux_congr : ∀ (l seen₁ seen₂ : List String),
    (∀ a, a ∈ seen₁ ↔ a ∈ seen₂) →
    dedupFirstAux seen₁ l = dedupFirstAux seen₂ l := by
  intro l
  induction l with
  | nil => intro seen₁ seen₂ _; rfl
  | cons x xs ih =>
    intro seen₁ seen₂ hiff
    by_cases hx : x ∈ seen₁
    · have h1 : seen₁.contains x = true := by
        simpa using hx
      have h2 : seen₂.contains x = true := by
        simpa using (hiff x).mp hx
      simp only [dedupFirstAux, h1, h2, if_pos]
      exact ih seen₁ seen₂ hiff
    · have h1 : seen₁.contains x = false := by
        simpa using hx
      have h2 : seen₂.contains x = false := by
        simpa using fun hc => hx ((hiff x).mpr hc)
      simp only [dedupFirstAux, h1, h2, Bool.false_eq_true, if_neg,
        not_false_iff]
      rw [ih (x :: seen₁) (x :: seen₂) (by
        intro a
        simp only [List.mem_cons]
        exact or_congr Iff.rfl (hiff a))]

theorem dedupFirstAux_filter : ∀ (l seen : List String) (x : String),
    dedupFirstAux (x :: seen) l =
      dedupFirstAux seen (l.filter (fun y => y != x)) := by
  intro l
  induction l with
  | nil => intro seen x; rfl
  | cons y ys ih =>
    intro seen x
    by_cases hyx : y = x
    · subst hyx
      have hc : (y :: seen).contains y = true := by simp
      simp only [dedupFirstAux, hc, if_pos, List.filter_cons,
        bne_self_eq_false, Bool.false_eq_true, if_neg, not_false_iff]
      exact ih seen y
    · have hkeep : (y != x) = true := by simpa using hyx
      by_cases hy : y ∈ seen
      · have h1 : (x :: seen).contains y = true := by
          simp [List.mem_cons, hy]
        have h2 : seen.contains y = true := by simpa using hy
        simp only [dedupFirstAux, List.filter_cons, hkeep, if_pos, h1, h2]
        exact ih seen x
      · have h1 : (x :: seen).contains y = false := by
          rw [Bool.eq_false_iff]
          intro hc
          have : y ∈ x :: seen := by simpa using hc
          rcases List.mem_cons.mp this with h | h
          · exact hyx h
          · exact hy h
        have h2 : seen.contains y = false := by simpa using hy
        simp only [dedupFirstAux, List.filter_cons, hkeep, if_pos, h1, h2,
          Bool.false_eq_true, if_neg, not_false_iff]
        rw [dedupFirstAux_congr ys (y :: x :: seen) (x :: y :: seen) (by
          intro a
          simp only [List.mem_cons]
          constructor
          · rintro (h | h | h)
            · exact Or.inr (Or.inl h)
            · exact Or.inl h
            · exact Or.inr (Or.inr h)
          · rintro (h | h | h)
            · exact Or.inr (Or.inl h)
            · exact Or.inl h
            · exact Or.inr (Or.inr h))]
        rw [ih (y :: seen) x]

theorem dict_insert_fresh {d : List (String × DataFrame)} {k : String}
    {v : DataFrame} (h : ∀ p ∈ d, p.1 ≠ k) :
    dict_insert d k v = d ++ [(k, v)] := by
  have hany : d.any (fun p => p.1 == k) = false := by
    rw [List.any_eq_false]
    intro p hp
    simpa using h p hp
  simp [dict_insert, hany]

theorem foldl_dict_insert_fresh :
    ∀ (l acc : List (String × DataFrame)),
      (∀ p ∈ l, ∀ q ∈ acc, p.1 ≠ q.1) →
      (l.map Prod.fst).Nodup →
      l.foldl (fun d p => dict_insert d p.1 p.2) acc = acc ++ l := by
  intro l
  induction l with
  | nil => intro acc _ _; simp
  | cons x xs ih =>
    intro acc hfresh hnodup
    simp only [List.foldl_cons]
    have hx : dict_insert acc x.1 x.2 = acc ++ [(x.1, x.2)] := by
      apply dict_insert_fresh
      intro q hq
      exact (hfresh x (List.mem_cons_self x xs) q hq).symm
    rw [hx]
    have hnodup' : (xs.map Prod.fst).Nodup := by
      simp only [List.map_cons, List.nodup_cons] at hnodup
      exact hnodup.2
    have hx1 : x.1 ∉ xs.map Prod.fst := by
      simp only [List.map_cons, List.nodup_cons] at hnodup
      exact hnodup.1
    rw [ih (acc ++ [(x.1, x.2)]) ?_ hnodup']
    · simp
    · intro p hp q hq
      rcases List.mem_append.mp hq with hq | hq
      · exact hfresh p (List.mem_cons_of_mem x hp) q hq
      · simp only [List.mem_singleton] at hq
        subst hq
        intro hcontra
        exact hx1 (hcontra ▸ List.mem_map_of_mem Prod.fst hp)

theorem map_fst_zip_eq {α β : Type} :
    ∀ (l₁ : List α) (l₂ : List β), l₁.length = l₂.length →
      (l₁.zip l₂).map Prod.fst = l₁ := by
  intro l₁
  induction l₁ with
  | nil => intro l₂ _; simp
  | cons x xs ih =>
    intro l₂ h
    cases l₂ with
    | nil => simp at h
    | cons y ys =>
      simp only [List.zip_cons_cons, List.map_cons]
      rw [ih ys (by simpa using h)]

/-- With pairwise-distinct display names and one table per name, the loaded
predictions dictionary is the name/table association in declaration order. -/
theorem load_model_predictions_eq_zip {model_names : List String}
    {tables : List DataFrame} (hnodup : model_names.Nodup)
    (hlen : model_names.length = tables.length) :
    load_model_predictions model_names tables = model_names.zip tables := by
  unfold load_model_predictions
  have hkeys : ((model_names.zip tables).map Prod.fst).Nodup := by
    rw [map_fst_zip_eq model_names tables hlen]
    exact hnodup
  rw [foldl_dict_insert_fresh (model_names.zip tables) []
    (by intro p _ q hq; exact absurd hq (List.not_mem_nil q)) hkeys]
  simp

theorem build_frame_fields_fst {frame_idx : ℕ} :
    ∀ {pred_keypoints_dict : List (String × List Keypoints)}
      {fields : List (String × Keypoints)},
      build_frame_fields pred_keypoints_dict frame_idx = .ok fields →
      fields.map Prod.fst =
        pred_keypoints_dict.map (fun p => p.1 ++ "_preds") := by
  intro d
  induction d with
  | nil =>
    intro fields h
    simp [build_frame_fields, mapExcept] at h
    simp [← h]
  | cons p rest ih =>
    intro fields h
    unfold build_frame_fields mapExcept at h
    cases hg : p.2.get? frame_idx with
    | none => simp only [hg] at h; exact Except.noConfusion h
    | some ks =>
      simp only [hg] at h
      cases hrec : mapExcept
          (fun p =>
            match p.2.get? frame_idx with
            | some ks => Except.ok (p.1 ++ "_preds", ks)
            | none => Except.error Err.indexError)
          rest with
      | error e => simp only [hrec] at h; exact Except.noConfusion h
      | ok ys =>
        simp only [hrec, Except.ok.injEq] at h
        subst h
        have hys : build_frame_fields rest frame_idx = .ok ys := hrec
        simp only [List.map_cons, ih hys]

theorem get_image_tags_error {pred_df : DataFrame} {e : Err}
    (h : get_image_tags pred_df = .error e) : e = .invalidTagSet := by
  unfold get_image_tags at h
  by_cases hc : check_unique_tags (substituteTags pred_df.lastCol) = true
  · rw [if_pos hc] at h; exact Except.noConfusion h
  · rw [if_neg hc] at h
    injection h with h
    exact h.symm

theorem build_frame_fields_error
    {pred_keypoints_dict : List (String × List Keypoints)} {frame_idx : ℕ}
    {e : Err} (h : build_frame_fields pred_keypoints_dict frame_idx = .error e) :
    e = .indexError := by
  obtain ⟨p, _, hp⟩ := mapExcept_error_mem h
  cases hg : p.2.get? frame_idx with
  | none =>
    rw [hg] at hp
    injection hp with hp
    exact hp.symm
  | some ks => rw [hg] at hp; exact Except.noConfusion hp

theorem build_samples_error {paths data_tags : List String}
    {gt_keypoints_list : List Keypoints}
    {pred_keypoints_dict : List (String × List Keypoints)} {e : Err}
    (h : build_samples paths data_tags gt_keypoints_list
      pred_keypoints_dict = .error e) : e = .indexError := by
  obtain ⟨ip, _, hip⟩ := mapExcept_error_mem h
  cases ht : data_tags.get? ip.1 with
  | none =>
    simp only [ht] at hip
    injection hip with hip
    exact hip.symm
  | some tag =>
    cases hgt : gt_keypoints_list.get? ip.1 with
    | none =>
      simp only [ht, hgt] at hip
      injection hip with hip
      exact hip.symm
    | some gt =>
      simp only [ht, hgt] at hip
      cases hbf : build_frame_fields pred_keypoints_dict ip.1 with
      | error e' =>
        simp only [hbf] at hip
        injection hip with hip
        exact hip ▸ build_frame_fields_error hbf
      | ok fields => simp only [hbf] at hip; exact Except.noConfusion hip

/-- On success, the image-mode dataset carries the configured name and the
assembled samples. -/
theorem create_dataset_image_ok {cfg : ImageConfig} {d : Dataset}
    (h : (create_dataset_image cfg).2 = .ok d) :
    d.name = cfg.dataset_name := by
  unfold create_dataset_image at h
  cases hn : cfg.model_names.head? with
  | none => simp only [hn] at h; exact Except.noConfusion h
  | some first_name =>
    simp only [hn] at h
    cases hfd : ((load_model_predictions cfg.model_names
        cfg.model_tables).find? (fun p => p.1 == first_name)).map Prod.snd with
    | none => simp only [hfd] at h; exact Except.noConfusion h
    | some first_df =>
      simp only [hfd] at h
      cases htags : get_image_tags first_df with
      | error e => simp only [htags] at h; exact Except.noConfusion h
      | ok data_tags =>
        simp only [htags] at h
        cases hgt : get_keypoints_per_image cfg.keypoints_to_plot cfg.img_width
            cfg.img_height cfg.ground_truth_df with
        | error e => simp only [hgt] at h; exact Except.noConfusion h
        | ok gt_keypoints_list =>
          simp only [hgt] at h
          cases hpred : get_pred_keypoints_dict cfg.keypoints_to_plot
              cfg.img_width cfg.img_height
              (load_model_predictions cfg.model_names cfg.model_tables) with
          | error e => simp only [hpred] at h; exact Except.noConfusion h
          | ok pred_keypoints_dict =>
            simp only [hpred] at h
            cases hpaths : image_paths cfg with
            | error e => simp only [hpaths] at h; exact Except.noConfusion h
            | ok paths =>
              simp only [hpaths] at h
              cases hs : build_samples paths data_tags gt_keypoints_list
                  pred_keypoints_dict with
              | error e => simp only [hs] at h; exact Except.noConfusion h
              | ok samples =>
                simp only [hs, Except.ok.injEq] at h
                rw [← h]

/-- A build that fails with `MissingImageFile` has already completed both the
ground-truth and the per-model keypoint construction stages: the file check
lives inside the `image_paths` property, which `create_dataset` only
evaluates when starting the sample loop. -/
theorem create_dataset_image_missing_trace {cfg : ImageConfig}
    (h : (create_dataset_image cfg).2 = .error .missingImageFile) :
    (create_dataset_image cfg).1 =
      [.loadedModelPredictions, .derivedTags, .builtGtKeypoints,
       .builtModelKeypoints] := by
  unfold create_dataset_image at h ⊢
  cases hn : cfg.model_names.head? with
  | none =>
    simp only [hn] at h
    injection h with h
    exact Err.noConfusion h
  | some first_name =>
    simp only [hn] at h ⊢
    cases hfd : ((load_model_predictions cfg.model_names
        cfg.model_tables).find? (fun p => p.1 == first_name)).map Prod.snd with
    | none =>
      simp only [hfd] at h
      injection h with h
      exact Err.noConfusion h
    | some first_df =>
      simp only [hfd] at h ⊢
      cases htags : get_image_tags first_df with
      | error e =>
        simp only [htags] at h
        injection h with h
        rw [get_image_tags_error htags] at h
        exact Err.noConfusion h
      | ok data_tags =>
        simp only [htags] at h ⊢
        cases hgt : get_keypoints_per_image cfg.keypoints_to_plot cfg.img_width
            cfg.img_height cfg.ground_truth_df with
        | error e =>
          simp only [hgt] at h
          injection h with h
          rcases get_keypoints_per_image_error hgt with rfl | rfl
          · exact Err.noConfusion h
          · exact Err.noConfusion h
        | ok gt_keypoints_list =>
          simp only [hgt] at h ⊢
          cases hpred : get_pred_keypoints_dict cfg.keypoints_to_plot
              cfg.img_width cfg.img_height
              (load_model_predictions cfg.model_names cfg.model_tables) with
          | error e =>
            simp only [hpred] at h
            injection h with h
            rcases get_pred_keypoints_dict_error hpred with rfl | rfl
            · exact Err.noConfusion h
            · exact Err.noConfusion h
          | ok pred_keypoints_dict =>
            simp only [hpred] at h ⊢
            cases hpaths : image_paths cfg with
            | error e => simp only [hpaths]
            | ok paths =>
              simp only [hpaths] at h ⊢
              cases hs : build_samples paths data_tags gt_keypoints_list
                  pred_keypoints_dict with
              | error e =>
                simp only [hs] at h
                injection h with h
                rw [build_samples_error hs] at h
                exact Err.noConfusion h
              | ok samples =>
                simp only [hs] at h
                exact Except.noConfusion h

/-- On success, the video-mode dataset's name is the configured dataset name
with `"_videos"` appended. -/
theorem create_dataset_video_ok {cfg : VideoConfig} {d : Dataset}
    (h : create_dataset_video cfg = .ok d) :
    d.name = cfg.dataset_name ++ "_videos" := by
  unfold create_dataset_video at h
  cases hn : video_model_names cfg.model_display_names cfg.pred_csv_files with
  | error e => simp only [hn] at h; exact Except.noConfusion h
  | ok names =>
    simp only [hn] at h
    cases hr : get_pred_keypoints_dict cfg.keypoints_to_plot cfg.img_width
        cfg.img_height (load_model_predictions names cfg.pred_tables) with
    | error e => simp only [hr] at h; exact Except.noConfusion h
    | ok r =>
      simp only [hr] at h
      cases hf : build_video_frames r with
      | error e => simp only [hf] at h; exact Except.noConfusion h
      | ok frames =>
        simp only [hf, Except.ok.injEq] at h
        rw [← h]

theorem okLengths_ne_error {x : Except Err (List (String × List Keypoints))}
    {l : List ℕ} (h : okLengths x = some l) : ∀ e, x ≠ .error e := by
  intro e
  cases x with
  | ok r => intro hc; exact Except.noConfusion hc
  | error e' => simp [okLengths] at h

theorem headD_mem {α : Type} (d : α) :
    ∀ (l : List α), l ≠ [] → l.headD d ∈ l
  | [], h => absurd rfl h
  | x :: xs, _ => List.mem_cons_self x xs

/-! ## Theorems: the claims -/

/-- Claim C1: tag derivation first substitutes every occurrence of the raw
sentinel `"0.0"` with `"unused"`; validation then succeeds iff the distinct
values of the substituted sequence are exactly
`{test, train, validation}` or `{test, train, validation, unused}`;
on success the substituted sequence is returned, otherwise the build fails
with `InvalidTagSet`. -/
theorem get_image_tags_spec (pred_df : DataFrame) :
    (get_image_tags pred_df = .ok (substituteTags pred_df.lastCol) ↔
      ((substituteTags pred_df.lastCol).toFinset =
          ({"test", "train", "validation"} : Finset String) ∨
       (substituteTags pred_df.lastCol).toFinset =
          ({"test", "train", "validation", "unused"} : Finset String))) ∧
    (get_image_tags pred_df = .ok (substituteTags pred_df.lastCol) ∨
     get_image_tags pred_df = .error .invalidTagSet) := by
  unfold get_image_tags
  constructor
  · rw [← check_unique_tags_iff]
    constructor
    · intro h
      by_contra hc
      rw [if_neg (by simpa using hc)] at h
      exact Except.noConfusion h
    · intro h
      rw [if_pos h]
  · by_cases h : check_unique_tags (substituteTags pred_df.lastCol) = true
    · left; rw [if_pos h]
    · right; rw [if_neg h]

/-- Claim C2 (amended): the aggregator performs no row-count verification.
It can only fail with a plain `KeyError`/`IndexError` — never with
`RowCountMismatch` — and on success it returns, for each model in declaration
order, a keypoint list whose length equals that model's own table row count,
even when the models' row counts differ from each other. -/
theorem aggregator_no_row_count_check (keypoints_to_plot : List String)
    (img_width img_height : ℚ)
    (model_preds_dict : List (String × DataFrame)) :
    (∀ e, get_pred_keypoints_dict keypoints_to_plot img_width img_height
        model_preds_dict = .error e → e = .keyError ∨ e = .indexError) ∧
    (∀ r, get_pred_keypoints_dict keypoints_to_plot img_width img_height
        model_preds_dict = .ok r →
      r.map Prod.fst = model_preds_dict.map Prod.fst ∧
      List.Forall₂ (fun p q => p.2.length = q.2.nrows) r model_preds_dict) :=
  ⟨fun _ herr => get_pred_keypoints_dict_error herr,
   fun _ hok => get_pred_keypoints_dict_ok_shape hok⟩

/-- Counterexample to claim C2 as stated: two models whose row counts differ
(1 vs 2); the aggregator succeeds — producing lists of lengths 1 and 2 — and
in particular never fails with `RowCountMismatch`. -/
theorem aggregator_mismatch_counterexample :
    shortDf.nrows ≠ longDf.nrows ∧
    okLengths (get_pred_keypoints_dict ["nose"] 2 1
      [("m0", shortDf), ("m1", longDf)]) = some [1, 2] ∧
    ∀ e, get_pred_keypoints_dict ["nose"] 2 1
      [("m0", shortDf), ("m1", longDf)] ≠ .error e := by
  refine ⟨by decide, rfl, okLengths_ne_error rfl⟩

/-- Witness for claim C2's amended theorem: a model table lacking the
requested keypoint column makes the aggregator fail with a plain `KeyError`
(never `RowCountMismatch`). -/
theorem aggregator_no_row_count_check_witness :
    Err.keyError = Err.keyError ∨ Err.keyError = Err.indexError :=
  (aggregator_no_row_count_check ["nose"] 2 1 [("m0", emptyColsDf)]).1
    Err.keyError rfl

/-- Claim C3 (amended): in image mode, a resolved image path that is not a
regular file makes the build fail with `MissingImageFile` (the path check in
`image_paths` fails exactly when some resolved path is missing); however the
check runs only during the sample loop, after both the ground-truth and the
per-model keypoint construction have completed — not before any keypoint
work. -/
theorem image_file_check_spec (cfg : ImageConfig) :
    ((create_dataset_image cfg).2 = .error .missingImageFile →
      (create_dataset_image cfg).1 =
        [.loadedModelPredictions, .derivedTags, .builtGtKeypoints,
         .builtModelKeypoints]) ∧
    (image_paths cfg = .error .missingImageFile ↔
      ¬ (cfg.ground_truth_df.rowLabels.map
          (fun p => cfg.data_dir ++ "/" ++ p)).all cfg.fileExists = true) := by
  constructor
  · exact create_dataset_image_missing_trace
  · unfold image_paths
    by_cases hall : (cfg.ground_truth_df.rowLabels.map
        (fun p => cfg.data_dir ++ "/" ++ p)).all cfg.fileExists = true
    · rw [if_pos hall]
      constructor
      · intro h
        exact Except.noConfusion h
      · intro h
        exact absurd hall h
    · rw [if_neg hall]
      exact ⟨fun _ => hall, fun _ => rfl⟩

/-- Counterexample to claim C3 as stated: with every image file missing, the
build does fail with `MissingImageFile`, but its trace already contains both
keypoint-construction stages — the check did not run before keypoint work. -/
theorem image_check_order_counterexample :
    (create_dataset_image exMissingImageConfig).2 =
      .error .missingImageFile ∧
    Event.builtGtKeypoints ∈ (create_dataset_image exMissingImageConfig).1 ∧
    Event.builtModelKeypoints ∈
      (create_dataset_image exMissingImageConfig).1 :=
  ⟨rfl, by decide, by decide⟩

/-- Witness for claim C3's amended theorem at `exMissingImageConfig`. -/
theorem image_file_check_spec_witness :
    (create_dataset_image exMissingImageConfig).1 =
      [.loadedModelPredictions, .derivedTags, .builtGtKeypoints,
       .builtModelKeypoints] :=
  (image_file_check_spec exMissingImageConfig).1 rfl

/-- Claim C4: when no explicit keypoint subset is supplied, the inferred list
equals every distinct keypoint name of the ground-truth table's schema,
excluding the reserved row-label name `"bodyparts"` (which heads the schema,
its column being the row-label column the code reads with `iloc[:, 0]`), in
order of first appearance in the schema. -/
theorem infer_keypoints_spec (ground_truth_df : DataFrame)
    (rest : List String)
    (hhead : ground_truth_df.outerHeader = "bodyparts" :: rest) :
    resolve_keypoints_to_plot none ground_truth_df =
      dedupFirst (ground_truth_df.outerHeader.filter
        (fun n => n != "bodyparts")) := by
  unfold resolve_keypoints_to_plot columnsLevels0 dedupFirst
  rw [hhead]
  have hfilter : ("bodyparts" :: rest).filter (fun n => n != "bodyparts") =
      rest.filter (fun n => n != "bodyparts") := by
    simp [List.filter_cons]
  rw [hfilter]
  have hstep : dedupFirstAux [] ("bodyparts" :: rest) =
      "bodyparts" :: dedupFirstAux ["bodyparts"] rest := by
    simp [dedupFirstAux]
  rw [hstep]
  simp only [List.drop_succ_cons, List.drop_zero]
  exact dedupFirstAux_filter rest [] "bodyparts"

/-- Witness for claim C4 at `gtDf`: the inferred list on the
`["bodyparts", "nose", "nose"]` schema. -/
theorem infer_keypoints_spec_witness :
    resolve_keypoints_to_plot none gtDf =
      dedupFirst (gtDf.outerHeader.filter (fun n => n != "bodyparts")) ∧
    resolve_keypoints_to_plot none gtDf = ["nose"] :=
  ⟨infer_keypoints_spec gtDf ["nose", "nose"] rfl, rfl⟩

/-- Claim C5: with N declared models (pairwise-distinct display names, one
prediction table per file) whose tables each have F rows, a successful video
build yields exactly one sample whose frame map has exactly F entries, each
mapping, in original model-declaration order, one `"<model_name>_preds"`
field per model; the aggregator's dictionary likewise binds the N names in
declaration order to lists of F frame keypoint sets. -/
theorem aggregator_shape_spec (cfg : VideoConfig) (names : List String)
    (F : ℕ) (ds : Dataset)
    (hnames : video_model_names cfg.model_display_names cfg.pred_csv_files =
      .ok names)
    (hnodup : names.Nodup)
    (hlen : names.length = cfg.pred_tables.length)
    (hF : ∀ t ∈ cfg.pred_tables, t.nrows = F)
    (hok : create_dataset_video cfg = .ok ds) :
    ∃ s r, ds.samples = [s] ∧
      get_pred_keypoints_dict cfg.keypoints_to_plot cfg.img_width
        cfg.img_height (names.zip cfg.pred_tables) = .ok r ∧
      r.map Prod.fst = names ∧
      (∀ p ∈ r, p.2.length = F) ∧
      s.frames.length = F ∧
      (∀ fr ∈ s.frames,
        fr.2.map Prod.fst = names.map (fun n => n ++ "_preds")) := by
  unfold create_dataset_video at hok
  simp only [hnames] at hok
  simp only [load_model_predictions_eq_zip hnodup hlen] at hok
  cases hr : get_pred_keypoints_dict cfg.keypoints_to_plot cfg.img_width
      cfg.img_height (names.zip cfg.pred_tables) with
  | error e => simp only [hr] at hok; exact Except.noConfusion hok
  | ok r =>
    simp only [hr] at hok
    cases hframes : build_video_frames r with
    | error e => simp only [hframes] at hok; exact Except.noConfusion hok
    | ok frames =>
      simp only [hframes, Except.ok.injEq] at hok
      subst hok
      have hfst : r.map Prod.fst = (names.zip cfg.pred_tables).map Prod.fst ∧
          List.Forall₂ (fun p q => p.2.length = q.2.nrows) r
            (names.zip cfg.pred_tables) :=
        get_pred_keypoints_dict_ok_shape hr
      have hnameseq : r.map Prod.fst = names := by
        rw [hfst.1, map_fst_zip_eq names cfg.pred_tables hlen]
      have hlens : ∀ p ∈ r, p.2.length = F := by
        intro p hp
        obtain ⟨q, hq, hrq⟩ := forall₂_mem_left hfst.2 p hp
        rw [hrq]
        exact hF q.2 (List.of_mem_zip hq).2
      cases r with
      | nil =>
        unfold build_video_frames at hframes
        exact Except.noConfusion hframes
      | cons first rest =>
        have hfirstF : first.2.length = F :=
          hlens first (List.mem_cons_self first rest)
        have hframeslen : frames.length = F := by
          unfold build_video_frames at hframes
          have := mapExcept_ok_length hframes
          rw [List.length_range] at this
          rw [this, hfirstF]
        refine ⟨_, first :: rest, rfl, rfl, hnameseq, hlens, hframeslen, ?_⟩
        intro fr hfr
        unfold build_video_frames at hframes
        obtain ⟨i, _, hi⟩ := mapExcept_ok_mem hframes fr hfr
        cases hbf : build_frame_fields (first :: rest) i with
        | error e => rw [hbf] at hi; exact Except.noConfusion hi
        | ok fields =>
          rw [hbf] at hi
          cases hi
          have := build_frame_fields_fst hbf
          simp only [this]
          rw [show (first :: rest).map (fun p => p.1 ++ "_preds") =
              ((first :: rest).map Prod.fst).map (fun n => n ++ "_preds") by
            rw [List.map_map]; rfl]
          rw [hnameseq]

/-- Witness for claim C5 at `exVideoConfig`: one model, three frames. -/
theorem aggregator_shape_spec_witness :
    ∃ s r, exVideoDataset.samples = [s] ∧
      get_pred_keypoints_dict exVideoConfig.keypoints_to_plot
        exVideoConfig.img_width exVideoConfig.img_height
        (["model_0"].zip exVideoConfig.pred_tables) = .ok r ∧
      r.map Prod.fst = ["model_0"] ∧
      (∀ p ∈ r, p.2.length = 3) ∧
      s.frames.length = 3 ∧
      (∀ fr ∈ s.frames,
        fr.2.map Prod.fst = ["model_0"].map (fun n => n ++ "_preds")) :=
  aggregator_shape_spec exVideoConfig ["model_0"] 3 exVideoDataset rfl
    (by decide) rfl (by decide) rfl

/-- Claim C6: for every keypoint name and row index, when the table defines no
`likelihood` sub-field for the name (ground-truth tables), the emitted
`Keypoint`'s confidence is exactly `1.0`; when it does define one, the
confidence is the likelihood value at that row. -/
theorem keypoint_confidence_spec (img_width img_height : ℚ) (df : DataFrame)
    (i : ℕ) (name : String) (rest : List String) (col : Column)
    (res : List Keypoint)
    (hcol : dfGet df name = some col) (hname : name ≠ "bodyparts")
    (hres : build_single_frame_keypoint_list img_width img_height df i
        (name :: rest) = .ok res) :
    ∃ k tail, res = k :: tail ∧ k.label = name ∧
      (col.likelihood = none → k.confidence = 1) ∧
      (∀ lk, col.likelihood = some lk → lk.get? i = some k.confidence) := by
  obtain ⟨xv, yv, conf, tail, _, _, hconf, _, hres'⟩ :=
    build_cons_ok hcol hname hres
  refine ⟨_, tail, hres', rfl, ?_, ?_⟩
  · intro hnone
    unfold readConfidence at hconf
    simp only [hnone, Except.ok.injEq] at hconf
    exact hconf.symm
  · intro lk hlk
    unfold readConfidence at hconf
    simp only [hlk] at hconf
    cases hg : lk.get? i with
    | none => simp only [hg] at hconf; exact Except.noConfusion hconf
    | some c =>
      simp only [hg, Except.ok.injEq] at hconf
      simp [hg, hconf]

/-- Witness for claim C6 at `gtDf` row 0: the ground-truth column has no
likelihood sub-field, so the emitted confidence is 1. -/
theorem keypoint_confidence_spec_witness :
    ∃ k tail, exGtRow0 = k :: tail ∧ k.label = "nose" ∧
      (noseColGt.likelihood = none → k.confidence = 1) ∧
      (∀ lk, noseColGt.likelihood = some lk →
        lk.get? 0 = some k.confidence) :=
  keypoint_confidence_spec 2 1 gtDf 0 "nose" [] noseColGt exGtRow0 rfl
    (by decide) rfl

/-- Claim C7: in video mode, explicit model display names must match the
prediction-file count or the build fails with `ModelNameCountMismatch`; absent
explicit names, `"model_0" .. "model_<N-1>"` are synthesized in
prediction-file declaration order. -/
theorem video_model_names_spec (pred_csv_files : List String) :
    (∀ ns : List String,
      (ns.length = pred_csv_files.length →
        video_model_names (some ns) pred_csv_files = .ok ns) ∧
      (ns.length ≠ pred_csv_files.length →
        video_model_names (some ns) pred_csv_files =
          .error .modelNameCountMismatch)) ∧
    video_model_names none pred_csv_files =
      .ok ((List.range pred_csv_files.length).map
        (fun i => "model_" ++ toString i)) := by
  refine ⟨fun ns => ⟨?_, ?_⟩, ?_⟩
  · intro h
    unfold video_model_names
    rw [if_pos h]
  · intro h
    unfold video_model_names
    rw [if_neg h]
  · unfold video_model_names
    rw [if_pos (by simp)]

/-- Witness for claim C7: two explicit names against three prediction files
fail with `ModelNameCountMismatch`, as in the spec's scenario. -/
theorem video_model_names_spec_witness :
    video_model_names (some ["a", "b"]) ["f0", "f1", "f2"] =
      .error .modelNameCountMismatch :=
  ((video_model_names_spec ["f0", "f1", "f2"]).1 ["a", "b"]).2 (by decide)

/-- Claim C8: every emitted point is `(x / img_width, y / img_height)` — with
width `200`, height `100` the raw reading `(100, 50)` normalizes to
`(1/2, 1/2)` — and multiplying the normalized coordinates back by the
width/height reproduces the raw values exactly. -/
theorem keypoint_normalization_spec (img_width img_height : ℚ) (df : DataFrame)
    (i : ℕ) (name : String) (rest : List String) (col : Column)
    (res : List Keypoint) (xv yv : ℚ)
    (hw : img_width ≠ 0) (hh : img_height ≠ 0)
    (hcol : dfGet df name = some col) (hname : name ≠ "bodyparts")
    (hx : col.x.get? i = some xv) (hy : col.y.get? i = some yv)
    (hres : build_single_frame_keypoint_list img_width img_height df i
        (name :: rest) = .ok res) :
    ∃ k tail, res = k :: tail ∧
      k.points = [(xv / img_width, yv / img_height)] ∧
      (xv / img_width) * img_width = xv ∧
      (yv / img_height) * img_height = yv := by
  obtain ⟨xv', yv', conf, tail, hx', hy', _, _, hres'⟩ :=
    build_cons_ok hcol hname hres
  have hxx : xv = xv' := Option.some.inj (hx.symm.trans hx')
  have hyy : yv = yv' := Option.some.inj (hy.symm.trans hy')
  subst hxx
  subst hyy
  exact ⟨_, tail, hres', rfl, div_mul_cancel₀ xv hw, div_mul_cancel₀ yv hh⟩

/-- Witness for claim C8 at the spec's scenario: width 200, height 100, raw
`(100, 50)` — the emitted point is `(100/200, 50/100) = (1/2, 1/2)` and
multiplying back reproduces the raw values. -/
theorem keypoint_normalization_spec_witness :
    (∃ k tail, scenarioRes = k :: tail ∧
      k.points = [((100 : ℚ) / 200, (50 : ℚ) / 100)] ∧
      (100 : ℚ) / 200 * 200 = 100 ∧ (50 : ℚ) / 100 * 100 = 50) ∧
    ((100 : ℚ) / 200 = 1 / 2 ∧ (50 : ℚ) / 100 = 1 / 2) :=
  ⟨keypoint_normalization_spec 200 100 scenarioDf 0 "nose" [] scenarioCol
      scenarioRes 100 50 (by norm_num) (by norm_num) rfl (by decide) rfl rfl
      rfl,
   by norm_num⟩

/-- Claim C9: within one dataset build (one fixed `keypoints_to_plot` list),
the sequence of keypoint names of every emitted `FrameKeypointSet` is
identical across the ground-truth source and every model's prediction source,
for every frame. -/
theorem keypoint_order_invariant (keypoints_to_plot : List String)
    (img_width img_height : ℚ) (gt_df : DataFrame)
    (model_preds_dict : List (String × DataFrame))
    (gt_list : List Keypoints) (preds : List (String × List Keypoints))
    (hgt : get_keypoints_per_image keypoints_to_plot img_width img_height gt_df
        = .ok gt_list)
    (hp : get_pred_keypoints_dict keypoints_to_plot img_width img_height
        model_preds_dict = .ok preds) :
    ∀ ks₁ ∈ gt_list, ∀ p ∈ preds, ∀ ks₂ ∈ p.2,
      ks₁.keypoints.map Keypoint.label = ks₂.keypoints.map Keypoint.label := by
  intro ks₁ hks₁ p hp' ks₂ hks₂
  have h₁ := get_keypoints_per_image_labels hgt ks₁ hks₁
  obtain ⟨q, _, hq⟩ := mapExcept_ok_mem hp p hp'
  cases hq2 : get_keypoints_per_image keypoints_to_plot img_width img_height
      q.2 with
  | error e => rw [hq2] at hq; exact Except.noConfusion hq
  | ok l =>
    rw [hq2] at hq
    cases hq
    have h₂ := get_keypoints_per_image_labels hq2 ks₂ hks₂
    rw [h₁, h₂]

/-- Witness for claim C9: the first ground-truth frame of `gtDf` and the
first predicted frame of model `"m0"` carry the same label sequence. -/
theorem keypoint_order_invariant_witness :
    exKs1.keypoints.map Keypoint.label = exKs2.keypoints.map Keypoint.label :=
  keypoint_order_invariant ["nose"] 2 1 gtDf [("m0", predDf)] exGtList
    exPredDict rfl rfl exKs1 (headD_mem _ _ (by decide)) exP
    (headD_mem _ _ (by decide)) exKs2 (headD_mem _ _ (by decide))

/-- Claim C10: the image-mode dataset takes exactly the configured name while
the video-mode dataset takes the configured name with `"_videos"` appended,
so a video build never reuses the name of an image build made from the same
configured dataset name. -/
theorem dataset_name_spec (icfg : ImageConfig) (vcfg : VideoConfig)
    (di dv : Dataset)
    (hi : (create_dataset_image icfg).2 = .ok di)
    (hv : create_dataset_video vcfg = .ok dv)
    (hsame : vcfg.dataset_name = icfg.dataset_name) :
    di.name = icfg.dataset_name ∧
      dv.name = icfg.dataset_name ++ "_videos" ∧
      dv.name ≠ di.name := by
  have h1 : di.name = icfg.dataset_name := create_dataset_image_ok hi
  have h2 : dv.name = icfg.dataset_name ++ "_videos" := by
    rw [create_dataset_video_ok hv, hsame]
  refine ⟨h1, h2, ?_⟩
  rw [h1, h2]
  intro hcontra
  have hlen := congrArg String.length hcontra
  have h7 : ("_videos" : String).length = 7 := rfl
  rw [String.length_append, h7] at hlen
  omega

/-- Witness for claim C10 on the concrete image and video builds sharing the
configured name `"lp_ds"`. -/
theorem dataset_name_spec_witness :
    exImageDataset.name = exImageConfig.dataset_name ∧
      exVideoDataset.name = exImageConfig.dataset_name ++ "_videos" ∧
      exVideoDataset.name ≠ exImageDataset.name :=
  dataset_name_spec exImageConfig exVideoConfig exImageDataset exVideoDataset
    rfl rfl rfl

end LightningPose
